import Mathlib

/-!
Shallow embedding of the `node-dns-resolver` library (src/config.js, src/util.js,
src/resolve.js) in Lean 4.

The DNS transport (`node:dns/promises` `Resolver`) is an external collaborator;
it is modelled as a record of pure oracles, one per query kind, each returning
either the raw record values or a classified lookup-error code (the `code`
property of the rejection, e.g. "ENODATA", "ENOTFOUND").

JavaScript mutable chain arrays are modelled by explicit state passing: every
validator takes the chain it would mutate and returns the final chain next to
its outcome.  Thrown values are modelled with `Except`.
-/

namespace NodeDnsResolver

/-- Outcome slot of one chain entry: `"valid"`, `"invalid"`, a resolver error
code string, or the raw resolved values (`string[]`). -/
inductive ChainResult where
  | valid
  | invalid
  | code (c : String)
  | values (vs : List String)
deriving DecidableEq, Repr

/-- One diagnostic chain entry (`DnsChain` element in src/types.js). -/
structure ChainEntry where
  nr : Nat
  type : String
  hostname : String
  result : ChainResult
deriving DecidableEq, Repr

/-- A TXT record as returned by `resolver.resolveTxt`: a non-empty list of
text segments.  (Node always returns at least one segment per record; the
source indexes `v[0]` without a guard.)  `first` is `v[0]`, `rest` the
remaining segments. -/
structure TxtRecord where
  first : String
  rest : List String
deriving DecidableEq, Repr

/-- Concatenation of all segments of a TXT record (`v.join("")`). -/
def TxtRecord.joined (t : TxtRecord) : String :=
  String.join (t.first :: t.rest)

/-- An MX record as returned by `resolver.resolveMx`. -/
structure MxRecord where
  priority : Nat
  exchange : String
deriving DecidableEq, Repr

/-- The allow-list configuration (`DnsValidateConfig` in src/config.js). -/
structure DnsValidateConfig where
  validIpv4 : List String
  validIpv6 : List String
  validCname : List String
  validSpf : String
  validMx : List String
deriving DecidableEq, Repr

/-- An incoming `Partial<DnsValidateConfig>`: each field either provided or
absent.  (A provided list field corresponds to the source's `Array.isArray`
test succeeding; a provided SPF value corresponds to
`typeof config.validSpf === "string"`.) -/
structure ConfigPatch where
  validIpv4 : Option (List String) := none
  validIpv6 : Option (List String) := none
  validCname : Option (List String) := none
  validSpf : Option String := none
  validMx : Option (List String) := none
deriving DecidableEq, Repr

/-- Embedding of `config(config, append)` from src/config.js, as a pure state
transformer on the module-level `configuration` object. -/
def mergeConfig (state : DnsValidateConfig) (p : ConfigPatch) (append : Bool) :
    DnsValidateConfig :=
  if append then
    { validIpv4 := match p.validIpv4 with
        | some vs => state.validIpv4 ++ vs
        | none => state.validIpv4
      validIpv6 := match p.validIpv6 with
        | some vs => state.validIpv6 ++ vs
        | none => state.validIpv6
      validCname := match p.validCname with
        | some vs => state.validCname ++ vs
        | none => state.validCname
      validSpf := match p.validSpf with
        | some s => s
        | none => state.validSpf
      validMx := match p.validMx with
        | some vs => state.validMx ++ vs
        | none => state.validMx }
  else
    { validIpv4 := match p.validIpv4 with
        | some vs => vs
        | none => state.validIpv4
      validIpv6 := match p.validIpv6 with
        | some vs => vs
        | none => state.validIpv6
      validCname := match p.validCname with
        | some vs => vs
        | none => state.validCname
      validSpf := match p.validSpf with
        | some s => s
        | none => state.validSpf
      validMx := match p.validMx with
        | some vs => vs
        | none => state.validMx }

/-- The configuration state produced by `reset()` in src/config.js. -/
def resetConfig : DnsValidateConfig :=
  { validIpv4 := []
    validIpv6 := []
    validCname := []
    validSpf := ""
    validMx := [] }

/-- Deep copy of a `DnsValidateConfig` (`structuredClone`), rebuilding every
list.  In the pure embedding the copy is equal (as a value) to the original;
the point of the source's clone is that the copy shares no mutable reference
with the store. -/
def cloneConfig (c : DnsValidateConfig) : DnsValidateConfig :=
  { validIpv4 := c.validIpv4.map id
    validIpv6 := c.validIpv6.map id
    validCname := c.validCname.map id
    validSpf := c.validSpf
    validMx := c.validMx.map id }

/-- Embedding of `get()` from src/config.js: returns a defensive copy of the
store. -/
def getConfig (state : DnsValidateConfig) : DnsValidateConfig :=
  cloneConfig state

/-- Contents of the `error` slot of a `DnsError`'s info (`DnsErrorInfo.error`):
the source stores either a plain string (such as "ENOTFOUND", "invalid",
"unavailable", "PERMERROR"), an `Error` object carrying a classified `code`
property, or a plain `Error` without a code.  (A `DnsError` is never stored
in this slot on any reachable path.) -/
inductive ErrorCause where
  | strval (s : String)
  | code (c : String)
  | generic (msg : String)
deriving DecidableEq, Repr

/-- The structured validation error (`DnsError` in src/util.js).
`expected` models the expected-value map the constructor builds: a
string-typed `info.expectedValue` becomes the one-entry map
`{[recordType]: value}` and an object is kept as is; absent values
(`undefined`, e.g. `this.c.validCname[0]` on an empty list) are `none`. -/
structure DnsError where
  message : String
  status : Nat
  hostname : String
  recordType : String
  expected : List (String × Option String)
  cause : ErrorCause
  chain : List ChainEntry
deriving DecidableEq, Repr

/-- A thrown JavaScript value as the validators can observe it:
a `DnsError`, an `Error` with a classified `code` property (every rejection
of the `node:dns` promise API), or an `Error` without a `code` (such as
`new Error("No valid IPv4 addresses found")` or a `TypeError`). -/
inductive JsError where
  | dnsErr (e : DnsError)
  | codeErr (code : String)
  | genericErr (msg : String)
deriving DecidableEq, Repr

/-- The classified code of a thrown value, when it has one
(`err?.code`, `"code" in err`). -/
def JsError.jsCode : JsError → Option String
  | .codeErr c => some c
  | _ => none

/-- Conversion of a caught `JsError` into a `DnsError`'s `error` slot.
(On every reachable path the stored value is a code-carrying resolver error
or a plain error; the `dnsErr` case never reaches this conversion.) -/
def JsError.toCause : JsError → ErrorCause
  | .dnsErr e => .generic e.message
  | .codeErr c => .code c
  | .genericErr m => .generic m

/-- A successful validation value (`DnsValid` in src/resolve.js; the
`valid: true` tag is implicit in the type). -/
structure DnsValid where
  hostname : String
  recordType : String
  expectedValue : String
deriving DecidableEq, Repr

/-- The DNS transport: the five raw queries of the `node:dns/promises`
`Resolver`, each returning the raw record values or rejecting with a
classified lookup-error code. -/
structure DnsTransport where
  resolveCname : String → Except String (List String)
  resolve4 : String → Except String (List String)
  resolve6 : String → Except String (List String)
  resolveTxt : String → Except String (List TxtRecord)
  resolveMx : String → Except String (List MxRecord)

/-- Update of the `result` field of the chain entry at index `i`
(`chain[i].result = res`; no-op out of bounds, which never happens in the
flows). -/
def setChainResult (c : List ChainEntry) (i : Nat) (res : ChainResult) :
    List ChainEntry :=
  match c.get? i with
  | some e => c.set i { e with result := res }
  | none => c

/-- JavaScript `list[0]` rendered inside a template literal: `"undefined"`
when the list is empty. -/
def jsIndex0 (l : List String) : String :=
  l.headD "undefined"

/-- Rendering of a possibly-`undefined` string in a template literal. -/
def showJs : Option String → String
  | some s => s
  | none => "undefined"

/-- Tests whether `sub` occurs at the head of `s` (character-level). -/
def charsHead : List Char → List Char → Bool
  | [], _ => true
  | _ :: _, [] => false
  | a :: as, b :: bs => a == b && charsHead as bs

/-- Tests whether `sub` occurs somewhere in `s` (character-level). -/
def charsContains (s sub : List Char) : Bool :=
  charsHead sub s ||
    match s with
    | [] => false
    | _ :: rest => charsContains rest sub

/-- JavaScript `s.includes(sub)`: substring containment. -/
def strIncludes (s sub : String) : Bool :=
  charsContains s.toList sub.toList

/-- JavaScript `s.startsWith(pre)`. -/
def strStarts (s pre : String) : Bool :=
  charsHead pre.toList s.toList

-- according to https://stackoverflow.com/a/25086755/12990079
def MAX_CNAME_DEPTH : Nat := 16

/-- Embedding of `#validate4(hostname, chain)`: resolve A records, intersect
with the IPv4 allow-list. -/
def validate4 (r : DnsTransport) (cfg : DnsValidateConfig) (hostname : String)
    (chain : List ChainEntry) : Except JsError (List String) × List ChainEntry :=
  let chainIndex := chain.length
  let chain1 := chain ++ [{ nr := chainIndex, type := "A", hostname := hostname,
                            result := .invalid : ChainEntry }]
  match r.resolve4 hostname with
  | .error code =>
      (.error (.codeErr code), setChainResult chain1 chainIndex (.code code))
  | .ok addresses =>
      let intersection := addresses.filter (fun e => cfg.validIpv4.contains e)
      if intersection.length ≠ 0 then
        (.ok intersection, setChainResult chain1 chainIndex .valid)
      else
        (.error (.genericErr "No valid IPv4 addresses found"),
         setChainResult chain1 chainIndex (.values addresses))

/-- Embedding of `#validate6(hostname, chain)`: resolve AAAA records,
intersect with the IPv6 allow-list. -/
def validate6 (r : DnsTransport) (cfg : DnsValidateConfig) (hostname : String)
    (chain : List ChainEntry) : Except JsError (List String) × List ChainEntry :=
  let chainIndex := chain.length
  let chain1 := chain ++ [{ nr := chainIndex, type := "AAAA", hostname := hostname,
                            result := .invalid : ChainEntry }]
  match r.resolve6 hostname with
  | .error code =>
      (.error (.codeErr code), setChainResult chain1 chainIndex (.code code))
  | .ok addresses =>
      let intersection := addresses.filter (fun e => cfg.validIpv6.contains e)
      if intersection.length ≠ 0 then
        (.ok intersection, setChainResult chain1 chainIndex .valid)
      else
        (.error (.genericErr "No valid IPv6 addresses found"),
         setChainResult chain1 chainIndex (.values addresses))

/-- Embedding of `#validateIp(hostname, chain)`: IPv6 first (preferred by
certbot); on an AAAA failure, fall back to IPv4 only when
`err?.code === "ENODATA"`; any other error is rethrown without querying A. -/
def validateIp (r : DnsTransport) (cfg : DnsValidateConfig) (hostname : String)
    (chain : List ChainEntry) : Except JsError (List String) × List ChainEntry :=
  match validate6 r cfg hostname chain with
  | (.ok v, ch) => (.ok v, ch)
  | (.error e, ch) =>
      if e.jsCode == some "ENODATA" then validate4 r cfg hostname ch
      else (.error e, ch)

/-- Embedding of `#validateCname(hostname, chain)`: append a CNAME entry,
resolve, return on an allow-list intersection, otherwise record the raw
targets, enforce the depth limit and recurse on the first target
(`addresses[0]`; an empty response would pass `undefined` on, modelled by
`headD ""`).

A rejection of `resolveCname` lands in the source's `catch`, whose first
statement is `if (err instanceof Error) throw err`; every resolver rejection
is an `Error`, so it is rethrown with the entry still `invalid`, and the
subsequent `"code" in err` / ENODATA / `#validateIp` fallback block is
unreachable.  The embedding reproduces that literal control flow. -/
def validateCname (r : DnsTransport) (cfg : DnsValidateConfig) (hostname : String)
    (chain : List ChainEntry) : Except JsError Unit × List ChainEntry :=
  let chainIndex := chain.length
  let chain1 := chain ++ [{ nr := chainIndex, type := "CNAME", hostname := hostname,
                            result := .invalid : ChainEntry }]
  match r.resolveCname hostname with
  | .error code => (.error (.codeErr code), chain1)
  | .ok addresses =>
      let intersection := addresses.filter (fun e => cfg.validCname.contains e)
      if intersection.length ≠ 0 then
        (.ok (), setChainResult chain1 chainIndex .valid)
      else
        let chain2 := setChainResult chain1 chainIndex (.values addresses)
        if MAX_CNAME_DEPTH ≤ chain2.length then
          (.error (.genericErr "CNAME record lookup exceeded maximum depth"), chain2)
        else
          validateCname r cfg (addresses.headD "") chain2
termination_by MAX_CNAME_DEPTH - chain.length
decreasing_by
  have hlen : ∀ (c : List ChainEntry) (i : Nat) (res : ChainResult),
      (setChainResult c i res).length = c.length := by
    intro c i res
    unfold setChainResult
    cases c.get? i <;> simp
  simp only [chain2, chain1, hlen, List.length_append, List.length_cons,
    List.length_nil, MAX_CNAME_DEPTH] at *
  omega

/-- Embedding of `validateWeb(hostname)`: drive the CNAME walk from a fresh
chain and wrap any failure into one `DnsError` with the chain attached. -/
def validateWeb (r : DnsTransport) (cfg : DnsValidateConfig) (hostname : String) :
    Except DnsError Unit :=
  match validateCname r cfg hostname [] with
  | (.ok _, _) => .ok ()
  | (.error e, chain) =>
      .error
        { message := "Validating IP address failed"
          status := 400
          hostname := hostname
          recordType := ((chain.getLast?).map (fun en => en.type)).getD "CNAME"
          expected := [("CNAME", cfg.validCname.head?), ("A", cfg.validIpv4.head?),
                       ("AAAA", cfg.validIpv6.head?)]
          cause := e.toCause
          chain := chain }

/-- Embedding of `#validateSpf(hostname)`: filter TXT records to those whose
first segment starts with `v=spf1`; zero is a 404, more than one a 409, and
a single one succeeds iff its joined text contains `include:<validSpf>`. -/
def validateSpf (r : DnsTransport) (cfg : DnsValidateConfig) (hostname : String) :
    Except JsError DnsValid :=
  let validSpf := cfg.validSpf
  let hostnameDot := hostname ++ "."
  let expectedStr := "v=spf1 include:" ++ validSpf ++ " -all"
  let chain : List ChainEntry :=
    [{ nr := 0, type := "MX", hostname := hostname, result := .invalid }]
  match r.resolveTxt hostname with
  | .error code =>
      .error (.dnsErr
        { message := "No SPF record found"
          status := if code == "ENOTFOUND" then 404 else 500
          hostname := hostnameDot
          recordType := "TXT"
          expected := [("TXT", some expectedStr)]
          cause := .strval code
          chain := chain })
  | .ok records =>
      let spfRecords := records.filter (fun v => strStarts v.first "v=spf1")
      match spfRecords with
      | [] =>
          .error (.dnsErr
            { message := "No SPF record found"
              status := 404
              hostname := hostnameDot
              recordType := "TXT"
              expected := [("TXT", some expectedStr)]
              cause := .strval "ENOTFOUND"
              chain := chain })
      | [rec] =>
          let spf := rec.joined
          if strIncludes spf ("include:" ++ validSpf) then
            .ok { hostname := hostnameDot, recordType := "TXT",
                  expectedValue := expectedStr }
          else
            .error (.dnsErr
              { message := validSpf ++ " is not included in spf record: " ++ spf
                status := 404
                hostname := hostnameDot
                recordType := "TXT"
                expected := [("TXT", some expectedStr)]
                cause := .strval "invalid"
                chain := [{ nr := 0, type := "MX", hostname := hostname,
                            result := .values [spf] }] })
      | _ :: _ :: _ =>
          .error (.dnsErr
            { message := "Cannot have more than 1 SPF record"
              status := 409
              hostname := hostnameDot
              recordType := "TXT"
              expected := [("TXT", some expectedStr)]
              cause := .strval "PERMERROR"
              chain := chain })

/-- The comparator of `addresses.sort((a, b) => a.priority - b.priority)`. -/
def mxLe (a b : MxRecord) : Prop :=
  a.priority ≤ b.priority

instance : DecidableRel mxLe := fun a b => Nat.decLe a.priority b.priority

instance : IsTotal MxRecord mxLe := ⟨fun a b => Nat.le_total a.priority b.priority⟩

instance : IsTrans MxRecord mxLe := ⟨fun _ _ _ => Nat.le_trans⟩

/-- Stable ascending sort by priority
(`addresses.sort((a, b) => a.priority - b.priority)`; `Array.prototype.sort`
is a stable sort per ES2019, modelled by Mathlib's stable insertion sort
under the priority order). -/
def sortMx (l : List MxRecord) : List MxRecord :=
  l.insertionSort mxLe

/-- Embedding of `#validateMx(hostname)`: pick the lowest-priority record
after a stable sort; succeed iff its exchange is allow-listed, otherwise
fail with all `priority exchange` pairs (in sorted order) in the chain.
(On an empty response, destructuring gives `undefined` and `.exchange`
throws a `TypeError`, which carries no `code` and is rethrown as is.) -/
def validateMx (r : DnsTransport) (cfg : DnsValidateConfig) (hostname : String) :
    Except JsError DnsValid :=
  let validMx := cfg.validMx
  let hostnameDot := hostname ++ "."
  let expectedStr := "0 " ++ jsIndex0 validMx ++ "."
  let chain : List ChainEntry :=
    [{ nr := 0, type := "MX", hostname := hostname, result := .invalid }]
  match r.resolveMx hostname with
  | .error code =>
      .error (.dnsErr
        { message := "No MX record found"
          status := if code == "ENOTFOUND" then 404 else 500
          hostname := hostnameDot
          recordType := "MX"
          expected := [("MX", some expectedStr)]
          cause := .code code
          chain := chain })
  | .ok addresses =>
      match sortMx addresses with
      | [] =>
          .error (.genericErr "TypeError: cannot read exchange of undefined")
      | priorityDomain :: rest =>
          if validMx.contains priorityDomain.exchange then
            .ok { hostname := hostnameDot, recordType := "MX",
                  expectedValue := expectedStr }
          else
            .error (.dnsErr
              { message := "Please set " ++ jsIndex0 validMx ++
                  " as the MX with the highest priority."
                status := 409
                hostname := hostnameDot
                recordType := "MX"
                expected := [("MX", some expectedStr)]
                cause := .strval "invalid"
                chain := [{ nr := 0, type := "MX", hostname := hostname,
                            result := .values ((priorityDomain :: rest).map
                              (fun e => toString e.priority ++ " " ++ e.exchange)) }] })

/-- The DKIM keys argument: `undefined`, or a JavaScript object modelled as
the ordered list of its own enumerable `(key, value)` pairs. -/
abbrev DkimArg := Option (List (String × String))

/-- The error thrown by the DKIM precondition check. -/
def dkimNotConfigured : DnsError :=
  { message := "No DKIM keys have been installed"
    status := 400
    hostname := ""
    recordType := "TXT"
    expected := [("TXT", some "")]
    cause := .strval "unavailable"
    chain := [] }

/-- Embedding of `#validateDkim(dkim)`: guard
`(!dkim) || Object.keys(dkim).length !== 2`, then resolve TXT at the selector
and require some record whose joined text equals the public key exactly.
A missing `selector`/`publicKey` field destructures to `undefined`;
`resolveTxt(undefined)` rejects with Node's coded `ERR_INVALID_ARG_TYPE`
error. -/
def validateDkim (r : DnsTransport) (dkim : DkimArg) : Except JsError DnsValid :=
  match dkim with
  | none => .error (.dnsErr dkimNotConfigured)
  | some obj =>
      if obj.length ≠ 2 then .error (.dnsErr dkimNotConfigured)
      else
        let selector : Option String := obj.lookup "selector"
        let value : Option String := obj.lookup "publicKey"
        let chain : List ChainEntry :=
          [{ nr := 0, type := "TXT", hostname := showJs selector, result := .invalid }]
        let lookupRes : Except String (List TxtRecord) :=
          match selector with
          | some s => r.resolveTxt s
          | none => .error "ERR_INVALID_ARG_TYPE"
        match lookupRes with
        | .error code =>
            .error (.dnsErr
              { message := "No TXT records found for selector " ++ showJs selector
                status := if code == "ENOTFOUND" then 404 else 500
                hostname := showJs selector
                recordType := "TXT"
                expected := [("TXT", value)]
                cause := .code code
                chain := chain })
        | .ok records =>
            if records.length = 0 then
              .error (.dnsErr
                { message := "No TXT records found for selector " ++ showJs selector
                  status := 404
                  hostname := showJs selector
                  recordType := "TXT"
                  expected := [("TXT", value)]
                  cause := .strval "ENOTFOUND"
                  chain := chain })
            else if (records.findIdx? (fun v => value == some v.joined)).isNone then
              .error (.dnsErr
                { message := "Correct DKIM record was not found"
                  status := 404
                  hostname := showJs selector
                  recordType := "TXT"
                  expected := [("TXT", value)]
                  cause := .strval "ENOTFOUND"
                  chain := chain })
            else
              .ok { hostname := showJs selector, recordType := "TXT",
                    expectedValue := showJs value }

/-- The result record of `validateMail`: all three slots always populated,
each with a success value or the captured error. -/
structure MailResult where
  spf : Except JsError DnsValid
  mx : Except JsError DnsValid
  dkim : Except JsError DnsValid
deriving Repr

/-- Embedding of `validateMail(hostname, dkim)`: run the three validators
independently (`Promise.all` of three never-rejecting wrappers) and capture
each outcome into its own slot. -/
def validateMail (r : DnsTransport) (cfg : DnsValidateConfig) (hostname : String)
    (dkim : DkimArg) : MailResult :=
  { spf := validateSpf r cfg hostname
    mx := validateMx r cfg hostname
    dkim := validateDkim r dkim }

/-- Projection: the status of a failed validator outcome, when the failure is
a `DnsError`. -/
def errStatus : Except JsError DnsValid → Option Nat
  | .error (.dnsErr e) => some e.status
  | _ => none

/-- Projection: the message of a failed validator outcome, when the failure
is a `DnsError`. -/
def errMessage : Except JsError DnsValid → Option String
  | .error (.dnsErr e) => some e.message
  | _ => none

/-- Projection: the chain of a failed validator outcome, when the failure is
a `DnsError`. -/
def errChain : Except JsError DnsValid → Option (List ChainEntry)
  | .error (.dnsErr e) => some e.chain
  | _ => none

/-- Projection: the `DnsError` a `validateWeb` rejection carries. -/
def webErr : Except DnsError Unit → Option DnsError
  | .error e => some e
  | .ok _ => none

/-- A transport whose CNAME and AAAA lookups report "no data" while A
resolves to `1.2.3.4`: the scenario of the documented IP-fallback path. -/
def tEnodata : DnsTransport :=
  { resolveCname := fun _ => .error "ENODATA"
    resolve4 := fun _ => .ok ["1.2.3.4"]
    resolve6 := fun _ => .error "ENODATA"
    resolveTxt := fun _ => .ok []
    resolveMx := fun _ => .ok [] }

/-- A web allow-list accepting `1.2.3.4` (IPv4) and `::1` (IPv6). -/
def cfgWeb : DnsValidateConfig :=
  { resetConfig with validIpv4 := ["1.2.3.4"], validIpv6 := ["::1"] }

/-- Same transport with a non-ENODATA AAAA failure and an arbitrary A
oracle `g`. -/
def tTimeout (g : String → Except String (List String)) : DnsTransport :=
  { tEnodata with resolve6 := fun _ => .error "ETIMEOUT", resolve4 := g }

/-- A transport producing an unbounded CNAME alias chain
`h → hx → hxx → …`. -/
def tHop : DnsTransport :=
  { tEnodata with resolveCname := fun s => .ok [s ++ "x"] }

/-- The hostname reached by the fifteenth hop of `tHop` from `"h"`. -/
def host15 : String :=
  "h" ++ String.mk (List.replicate 15 'x')

/-- A CNAME allow-list matched exactly at the fifteenth hop of `tHop`. -/
def cfgHop15 : DnsValidateConfig :=
  { resetConfig with validCname := [host15] }

/-- A TXT response holding one SPF record with an include directive. -/
def tSpfInc : DnsTransport :=
  { tEnodata with
    resolveTxt := fun _ => .ok [⟨"v=spf1 include:example.com -all", []⟩] }

/-- A TXT response holding two SPF records. -/
def tTwoSpf : DnsTransport :=
  { tEnodata with
    resolveTxt := fun _ => .ok [⟨"v=spf1 a", []⟩, ⟨"v=spf1 b", []⟩] }

/-- The MX response of the specification's example:
`[{priority:10, exchange:"b"}, {priority:5, exchange:"a"}]`. -/
def tMxPair : DnsTransport :=
  { tEnodata with resolveMx := fun _ => .ok [⟨10, "b"⟩, ⟨5, "a"⟩] }

/-- An MX response with a single record whose exchange is not allow-listed
under `cfgMxGood`. -/
def tMxBad : DnsTransport :=
  { tEnodata with resolveMx := fun _ => .ok [⟨5, "bad"⟩] }

/-- An MX allow-list accepting only `good`. -/
def cfgMxGood : DnsValidateConfig :=
  { resetConfig with validMx := ["good"] }

/-- An MX allow-list accepting only `a`. -/
def cfgMxA : DnsValidateConfig :=
  { resetConfig with validMx := ["a"] }

/-- A transport whose TXT lookups return no records. -/
def tTxtEmpty : DnsTransport :=
  { tEnodata with resolveTxt := fun _ => .ok [] }

/-- A transport whose TXT lookups return one non-SPF record. -/
def tTxtOne : DnsTransport :=
  { tEnodata with resolveTxt := fun _ => .ok [⟨"rec", []⟩] }

/-- A DKIM keys object with two own keys but no `publicKey` field: an
incomplete (selector, public key) pair that still passes the
`Object.keys(dkim).length !== 2` guard. -/
def objIncomplete : List (String × String) :=
  [("selector", "s"), ("privateKey", "k")]

/-- A transport combining a mismatching single MX record with a single
mismatching SPF TXT record. -/
def tC4 : DnsTransport :=
  { tEnodata with
    resolveMx := fun _ => .ok [⟨5, "bad"⟩]
    resolveTxt := fun _ => .ok [⟨"v=spf1 x", []⟩] }

theorem setChainResult_length (c : List ChainEntry) (i : Nat) (res : ChainResult) :
    (setChainResult c i res).length = c.length := by
  unfold setChainResult
  cases c.get? i <;> simp

theorem setChainResult_append (c : List ChainEntry) (e : ChainEntry)
    (res : ChainResult) :
    setChainResult (c ++ [e]) c.length res = c ++ [{ e with result := res }] := by
  induction c with
  | nil => rfl
  | cons a c ih =>
    unfold setChainResult at ih ⊢
    simp only [List.cons_append, List.length_cons, List.get?_cons_succ]
    cases hc : (c ++ [e]).get? c.length with
    | none => rw [hc] at ih; simpa using ih
    | some x =>
      rw [hc] at ih
      simpa using ih

theorem charsHead_iff (sub s : List Char) :
    charsHead sub s = true ↔ ∃ post, s = sub ++ post := by
  induction sub generalizing s with
  | nil => simp [charsHead]
  | cons a as ih =>
    cases s with
    | nil => simp [charsHead]
    | cons b bs =>
      simp only [charsHead, Bool.and_eq_true, beq_iff_eq, ih, List.cons_append,
        List.cons.injEq]
      constructor
      · rintro ⟨rfl, post, rfl⟩
        exact ⟨post, rfl, rfl⟩
      · rintro ⟨post, rfl, rfl⟩
        exact ⟨rfl, post, rfl⟩

theorem charsContains_iff (s sub : List Char) :
    charsContains s sub = true ↔ ∃ pre post, s = pre ++ sub ++ post := by
  induction s with
  | nil =>
    rw [charsContains]
    simp only [Bool.or_false, charsHead_iff]
    constructor
    · rintro ⟨post, h⟩
      exact ⟨[], post, by simpa using h⟩
    · rintro ⟨pre, post, h⟩
      have h' := h.symm
      simp only [List.append_assoc, List.append_eq_nil] at h'
      exact ⟨[], by simp [h'.2.1]⟩
  | cons c cs ih =>
    rw [charsContains]
    simp only [Bool.or_eq_true, charsHead_iff, ih]
    constructor
    · rintro (⟨post, h⟩ | ⟨pre, post, h⟩)
      · exact ⟨[], post, by simpa using h⟩
      · exact ⟨c :: pre, post, by simp [h]⟩
    · rintro ⟨pre, post, h⟩
      cases pre with
      | nil => exact Or.inl ⟨post, by simpa using h⟩
      | cons p ps =>
        simp only [List.cons_append, List.cons.injEq] at h
        exact Or.inr ⟨ps, post, h.2⟩

theorem strIncludes_iff (s sub : String) :
    strIncludes s sub = true ↔ ∃ p q : String, s = p ++ sub ++ q := by
  rw [strIncludes, charsContains_iff]
  constructor
  · rintro ⟨pre, post, h⟩
    refine ⟨⟨pre⟩, ⟨post⟩, ?_⟩
    apply String.ext
    simpa [String.data_append] using h
  · rintro ⟨p, q, rfl⟩
    exact ⟨p.data, q.data, by simp [String.data_append, String.toList]⟩

theorem sortMx_perm (l : List MxRecord) : List.Perm (sortMx l) l :=
  List.perm_insertionSort mxLe l

theorem sortMx_sorted (l : List MxRecord) : (sortMx l).Sorted mxLe :=
  List.sorted_insertionSort mxLe l

theorem sortMx_head_mem (l : List MxRecord) (sel : MxRecord) (rest : List MxRecord)
    (h : sortMx l = sel :: rest) : sel ∈ l := by
  have hmem : sel ∈ sortMx l := by
    rw [h]
    exact List.mem_cons_self _ _
  exact ((sortMx_perm l).mem_iff).1 hmem

theorem sortMx_head_min (l : List MxRecord) (sel : MxRecord) (rest : List MxRecord)
    (h : sortMx l = sel :: rest) : ∀ y ∈ l, sel.priority ≤ y.priority := by
  intro y hy
  have hmem : y ∈ sortMx l := ((sortMx_perm l).mem_iff).2 hy
  rw [h] at hmem
  rcases List.mem_cons.1 hmem with rfl | hmem
  · exact Nat.le_refl _
  · have hs := sortMx_sorted l
    rw [h] at hs
    exact List.rel_of_sorted_cons hs y hmem

theorem sortMx_head_firstMin (l : List MxRecord) (sel : MxRecord)
    (rest : List MxRecord) (h : sortMx l = sel :: rest) :
    ∃ l₁ l₂, l = l₁ ++ sel :: l₂ ∧ ∀ y ∈ l₁, sel.priority < y.priority := by
  induction l generalizing sel rest with
  | nil => simp [sortMx, List.insertionSort] at h
  | cons x xs ih =>
    rw [sortMx, List.insertionSort] at h
    cases hxs : List.insertionSort mxLe xs with
    | nil =>
      rw [hxs] at h
      simp only [List.orderedInsert] at h
      injection h with h1 h2
      subst h1
      exact ⟨[], xs, rfl, by simp⟩
    | cons hd tl =>
      rw [hxs] at h
      rw [List.orderedInsert] at h
      by_cases hle : mxLe x hd
      · rw [if_pos hle] at h
        injection h with h1 h2
        subst h1
        exact ⟨[], xs, rfl, by simp⟩
      · rw [if_neg hle] at h
        injection h with h1 h2
        subst h1
        have hxs' : sortMx xs = hd :: tl := hxs
        obtain ⟨m₁, m₂, hxeq, hm⟩ := ih hd tl hxs'
        refine ⟨x :: m₁, m₂, by simp [hxeq], ?_⟩
        intro y hy
        rcases List.mem_cons.1 hy with rfl | hy'
        · have hle' : ¬ y.priority ≤ hd.priority := hle
          exact Nat.lt_of_not_le hle'
        · exact hm y hy'

/-- C10: The DKIM precondition accepts only objects with exactly two own
keys: a DKIM-keys object carrying all three declared `DkimKeys` fields
(selector, publicKey, privateKey) is rejected with the same status-400
"No DKIM keys have been installed" error as a missing argument, without any
DNS query (the outcome does not depend on the transport), even though it
contains a complete (selector, public key) pair. -/
theorem C10_dkim_three_keys_rejected (r rAlt : DnsTransport) (s p k : String) :
    validateDkim r (some [("selector", s), ("publicKey", p), ("privateKey", k)])
      = .error (.dnsErr dkimNotConfigured) ∧
    validateDkim r (some [("selector", s), ("publicKey", p), ("privateKey", k)])
      = validateDkim rAlt none ∧
    dkimNotConfigured.status = 400 ∧
    dkimNotConfigured.message = "No DKIM keys have been installed" :=
  ⟨rfl, rfl, rfl, rfl⟩

/-- C9: Merging into the global configuration with `append = true`
concatenates each provided list field onto the existing list and replaces
the scalar SPF field when provided, leaving unset fields untouched; with
`append = false` each provided field replaces the existing one; a subsequent
read returns a value copy (deep clone) of the merged state. -/
theorem C9_config_merge_and_copy (s : DnsValidateConfig) (p : ConfigPatch) :
    (mergeConfig s p true).validIpv4 = s.validIpv4 ++ p.validIpv4.getD [] ∧
    (mergeConfig s p true).validIpv6 = s.validIpv6 ++ p.validIpv6.getD [] ∧
    (mergeConfig s p true).validCname = s.validCname ++ p.validCname.getD [] ∧
    (mergeConfig s p true).validMx = s.validMx ++ p.validMx.getD [] ∧
    (mergeConfig s p true).validSpf = p.validSpf.getD s.validSpf ∧
    (mergeConfig s p false).validIpv4 = p.validIpv4.getD s.validIpv4 ∧
    (mergeConfig s p false).validIpv6 = p.validIpv6.getD s.validIpv6 ∧
    (mergeConfig s p false).validCname = p.validCname.getD s.validCname ∧
    (mergeConfig s p false).validMx = p.validMx.getD s.validMx ∧
    (mergeConfig s p false).validSpf = p.validSpf.getD s.validSpf ∧
    getConfig (mergeConfig s p true) = mergeConfig s p true ∧
    getConfig (mergeConfig s p false) = mergeConfig s p false ∧
    getConfig s = s := by
  obtain ⟨p4, p6, pc, ps, pm⟩ := p
  cases p4 <;> cases p6 <;> cases pc <;> cases ps <;> cases pm <;>
    simp [mergeConfig, getConfig, cloneConfig, List.map_id]

/-- C8: `validateMail` never rejects and never returns a partial record: for
every hostname, DKIM argument and transport the result is exactly the record
of the three independent validator outcomes, each slot holding a success
value or the captured error; each slot depends only on its own query kind
(spf and dkim on TXT, mx on MX) and is unaffected by the DKIM argument or
by the outcome of the other two validators. -/
theorem C8_mail_slots_independent
    (cn a4 a6 cn2 a42 a62 : String → Except String (List String))
    (txt txt2 : String → Except String (List TxtRecord))
    (mxq mxq2 : String → Except String (List MxRecord))
    (cfg : DnsValidateConfig) (h : String) (d : DkimArg) :
    validateMail ⟨cn, a4, a6, txt, mxq⟩ cfg h d
      = { spf := validateSpf ⟨cn, a4, a6, txt, mxq⟩ cfg h
          mx := validateMx ⟨cn, a4, a6, txt, mxq⟩ cfg h
          dkim := validateDkim ⟨cn, a4, a6, txt, mxq⟩ d } ∧
    (validateMail ⟨cn, a4, a6, txt, mxq⟩ cfg h d).spf
      = validateSpf ⟨cn2, a42, a62, txt, mxq2⟩ cfg h ∧
    (validateMail ⟨cn, a4, a6, txt, mxq⟩ cfg h d).mx
      = validateMx ⟨cn2, a42, a62, txt2, mxq⟩ cfg h ∧
    (validateMail ⟨cn, a4, a6, txt, mxq⟩ cfg h d).dkim
      = validateDkim ⟨cn2, a42, a62, txt, mxq2⟩ d :=
  ⟨rfl, rfl, rfl, rfl⟩

/-- C3 (code-bug evaluation): `reset()` does empty every configuration
field, but it is not true that every validation against the empty
configuration fails for every resolver response: with the empty SPF value
the check `spf.includes("include:" + validSpf)` degenerates to
`spf.includes("include:")`, so `validateMail`'s SPF slot succeeds on any
single SPF TXT record containing an include directive. -/
theorem C3_reset_spf_can_succeed :
    resetConfig.validIpv4 = [] ∧ resetConfig.validIpv6 = [] ∧
    resetConfig.validCname = [] ∧ resetConfig.validSpf = "" ∧
    resetConfig.validMx = [] ∧
    (validateMail tSpfInc resetConfig "h" none).spf
      = .ok { hostname := "h.", recordType := "TXT",
              expectedValue := "v=spf1 include: -all" } :=
  ⟨rfl, rfl, rfl, rfl, rfl, rfl⟩

/-- C1 (code-bug evaluation): with CNAME resolution failing as "no data",
`validateWeb` does not fall back to IP validation: the source's catch guard
`if (err instanceof Error) throw err` rethrows every resolver error before
the ENODATA test, so the CNAME error propagates (wrapped by the web
orchestrator) even though `#validateIp` at the same input would succeed.
The final two conjuncts check the claim's description of `#validateIp`
itself: with AAAA "no data" and an allow-listed A answer it succeeds, and
with a non-ENODATA AAAA failure it propagates that error without consulting
the A oracle (the outcome is the same for every A oracle `g`). -/
theorem C1_enodata_fallback_unreachable :
    webErr (validateWeb tEnodata cfgWeb "h")
      = some { message := "Validating IP address failed", status := 400,
               hostname := "h", recordType := "CNAME",
               expected := [("CNAME", none), ("A", some "1.2.3.4"),
                            ("AAAA", some "::1")],
               cause := .code "ENODATA",
               chain := [{ nr := 0, type := "CNAME", hostname := "h",
                           result := .invalid }] } ∧
    validateIp tEnodata cfgWeb "h" []
      = (.ok ["1.2.3.4"],
         [{ nr := 0, type := "AAAA", hostname := "h", result := .code "ENODATA" },
          { nr := 1, type := "A", hostname := "h", result := .valid }]) ∧
    (∀ g, validateIp (tTimeout g) cfgWeb "h" []
      = (.error (.codeErr "ETIMEOUT"),
         [{ nr := 0, type := "AAAA", hostname := "h",
            result := .code "ETIMEOUT" }])) := by
  refine ⟨?_, ?_, ?_⟩
  · simp [validateWeb, validateCname, tEnodata, cfgWeb, resetConfig, webErr,
      JsError.toCause]
  · rfl
  · intro g
    rfl

/-- C7 counterexample: a DKIM keys object with two own keys but no
`publicKey` field is an incomplete (selector, public key) pair, yet it
passes the `Object.keys(dkim).length !== 2` guard: the dkim slot is then a
404 lookup error, not the status-400 "not configured" error, and a DNS
query is issued (the outcome depends on the TXT oracle). -/
theorem C7_counterexample_incomplete_pair :
    objIncomplete.lookup "publicKey" = none ∧
    objIncomplete.length = 2 ∧
    errStatus ((validateMail tTxtEmpty resetConfig "h" (some objIncomplete)).dkim)
      = some 404 ∧
    errStatus ((validateMail tTxtEmpty resetConfig "h" (some objIncomplete)).dkim)
      ≠ some dkimNotConfigured.status ∧
    errMessage ((validateMail tTxtOne resetConfig "h" (some objIncomplete)).dkim)
      ≠ errMessage ((validateMail tTxtEmpty resetConfig "h" (some objIncomplete)).dkim) := by
  refine ⟨rfl, rfl, rfl, by decide, by decide⟩

/-- C7 as amended: when `validateMail` is called with the DKIM keys argument
absent, or with an object whose number of own keys differs from two, the
dkim slot is the status-400 "No DKIM keys have been installed" error,
produced without issuing any DNS query (the slot does not depend on the
transport), while the spf and mx slots equal the standalone validator
outcomes and are unaffected by the dkim failure. -/
theorem C7_dkim_guard (r rAlt : DnsTransport) (cfg : DnsValidateConfig)
    (h : String) (d : DkimArg)
    (hd : d = none ∨ ∃ obj, d = some obj ∧ obj.length ≠ 2) :
    (validateMail r cfg h d).dkim = .error (.dnsErr dkimNotConfigured) ∧
    (validateMail r cfg h d).dkim = (validateMail rAlt cfg h d).dkim ∧
    (validateMail r cfg h d).spf = validateSpf r cfg h ∧
    (validateMail r cfg h d).mx = validateMx r cfg h := by
  refine ⟨?_, ?_, rfl, rfl⟩
  · rcases hd with rfl | ⟨obj, rfl, hobj⟩
    · rfl
    · simp [validateMail, validateDkim, hobj]
  · rcases hd with rfl | ⟨obj, rfl, hobj⟩
    · rfl
    · simp [validateMail, validateDkim, hobj]

theorem C7_dkim_guard_witness :
    (validateMail tTxtEmpty resetConfig "h" none).dkim
      = .error (.dnsErr dkimNotConfigured) ∧
    (validateMail tTxtEmpty resetConfig "h" none).dkim
      = (validateMail tTxtOne resetConfig "h" none).dkim ∧
    (validateMail tTxtEmpty resetConfig "h" none).spf
      = validateSpf tTxtEmpty resetConfig "h" ∧
    (validateMail tTxtEmpty resetConfig "h" none).mx
      = validateMx tTxtEmpty resetConfig "h" :=
  C7_dkim_guard tTxtEmpty tTxtOne resetConfig "h" none (Or.inl rfl)

/-- C4 counterexample: an MX mismatch (the record exists, its exchange is
not allow-listed) produces a conflict-status (409) error, not a not-found
(404) one, with the raw priority-exchange pairs attached to the chain. -/
theorem C4_counterexample_mx_mismatch_status :
    errStatus (validateMx tMxBad cfgMxGood "h") = some 409 ∧
    errChain (validateMx tMxBad cfgMxGood "h")
      = some [{ nr := 0, type := "MX", hostname := "h",
                result := .values ["5 bad"] }] ∧
    (409 : Nat) ≠ 404 :=
  ⟨rfl, rfl, by decide⟩

/-- C4 as amended: mismatch errors carry the raw resolved value(s) attached
to the chain; the SPF mismatch has not-found (404) status, while the MX
validator's mismatch error has conflict (409) status. -/
theorem C4_mismatch_statuses (r : DnsTransport) (cfg : DnsValidateConfig)
    (hmx hspf : String) (addrs : List MxRecord) (sel : MxRecord)
    (rest : List MxRecord) (records : List TxtRecord) (rec : TxtRecord)
    (hres : r.resolveMx hmx = .ok addrs)
    (hsort : sortMx addrs = sel :: rest)
    (hmiss : sel.exchange ∉ cfg.validMx)
    (htxt : r.resolveTxt hspf = .ok records)
    (hone : records.filter (fun v => strStarts v.first "v=spf1") = [rec])
    (hninc : strIncludes rec.joined ("include:" ++ cfg.validSpf) = false) :
    errStatus (validateMx r cfg hmx) = some 409 ∧
    errChain (validateMx r cfg hmx)
      = some [{ nr := 0, type := "MX", hostname := hmx,
                result := .values ((sel :: rest).map
                  (fun e => toString e.priority ++ " " ++ e.exchange)) }] ∧
    errStatus (validateSpf r cfg hspf) = some 404 ∧
    errChain (validateSpf r cfg hspf)
      = some [{ nr := 0, type := "MX", hostname := hspf,
                result := .values [rec.joined] }] := by
  have hcont : cfg.validMx.contains sel.exchange = false := by
    rw [Bool.eq_false_iff]
    intro hc
    exact hmiss (List.elem_iff.mp hc)
  refine ⟨?_, ?_, ?_, ?_⟩ <;>
    simp [validateMx, validateSpf, hres, hsort, hcont, hmiss, htxt, hone, hninc,
      errStatus, errChain]

theorem C4_mismatch_statuses_witness :
    (errStatus (validateMx tC4 cfgMxGood "h") = some 409 ∧
     errChain (validateMx tC4 cfgMxGood "h")
       = some [{ nr := 0, type := "MX", hostname := "h",
                 result := .values [toString (5 : Nat) ++ " " ++ "bad"] }] ∧
     errStatus (validateSpf tC4 cfgMxGood "spfhost") = some 404 ∧
     errChain (validateSpf tC4 cfgMxGood "spfhost")
       = some [{ nr := 0, type := "MX", hostname := "spfhost",
                 result := .values [(⟨"v=spf1 x", []⟩ : TxtRecord).joined] }]) := by
  have h := C4_mismatch_statuses tC4 cfgMxGood "h" "spfhost" [⟨5, "bad"⟩]
    ⟨5, "bad"⟩ [] [⟨"v=spf1 x", []⟩] ⟨"v=spf1 x", []⟩ rfl rfl (by decide) rfl rfl rfl
  simpa using h

/-- C5: for every TXT response, the SPF validator fails with a status-404
"No SPF record found" error when zero records' first segment starts with
`v=spf1`, fails with a status-409 conflict error when more than one does
(regardless of their contents), and with exactly one such record succeeds
iff that record's joined text contains `include:<configured SPF value>`. -/
theorem C5_spf_policy (r : DnsTransport) (cfg : DnsValidateConfig)
    (h : String) (records : List TxtRecord)
    (hres : r.resolveTxt h = .ok records) :
    (records.filter (fun v => strStarts v.first "v=spf1") = [] →
      errStatus (validateSpf r cfg h) = some 404 ∧
      errMessage (validateSpf r cfg h) = some "No SPF record found") ∧
    (∀ r1 r2 rs,
      records.filter (fun v => strStarts v.first "v=spf1") = r1 :: r2 :: rs →
      errStatus (validateSpf r cfg h) = some 409 ∧
      errMessage (validateSpf r cfg h)
        = some "Cannot have more than 1 SPF record") ∧
    (∀ rec, records.filter (fun v => strStarts v.first "v=spf1") = [rec] →
      (validateSpf r cfg h
          = .ok { hostname := h ++ ".", recordType := "TXT",
                  expectedValue := "v=spf1 include:" ++ cfg.validSpf ++ " -all" }
        ↔ ∃ p q : String, rec.joined = p ++ ("include:" ++ cfg.validSpf) ++ q)) := by
  refine ⟨?_, ?_, ?_⟩
  · intro hzero
    simp [validateSpf, hres, hzero, errStatus, errMessage]
  · intro r1 r2 rs htwo
    simp [validateSpf, hres, htwo, errStatus, errMessage]
  · intro rec hone
    rw [← strIncludes_iff]
    cases hinc : strIncludes rec.joined ("include:" ++ cfg.validSpf) with
    | true => simp [validateSpf, hres, hone, hinc]
    | false => simp [validateSpf, hres, hone, hinc]

theorem C5_spf_policy_witness :
    (errStatus (validateSpf tTwoSpf resetConfig "h") = some 409 ∧
     errMessage (validateSpf tTwoSpf resetConfig "h")
       = some "Cannot have more than 1 SPF record") := by
  have h := C5_spf_policy tTwoSpf resetConfig "h"
    [⟨"v=spf1 a", []⟩, ⟨"v=spf1 b", []⟩] rfl
  exact h.2.1 ⟨"v=spf1 a", []⟩ ⟨"v=spf1 b", []⟩ [] rfl

/-- C6: for every non-empty MX response, the validator selects the record
with the numerically lowest priority value, ties broken by resolver-returned
order (the selected record is the first element of the response attaining
the minimum), and succeeds iff that record's exchange is in the MX
allow-list; on mismatch the chain lists all returned priority-exchange
pairs, a permutation of the response sorted ascending by priority. -/
theorem C6_mx_lowest_priority (r : DnsTransport) (cfg : DnsValidateConfig)
    (h : String) (addrs : List MxRecord) (sel : MxRecord) (rest : List MxRecord)
    (hres : r.resolveMx h = .ok addrs)
    (hsort : sortMx addrs = sel :: rest) :
    sel ∈ addrs ∧
    (∀ y ∈ addrs, sel.priority ≤ y.priority) ∧
    (∃ l₁ l₂, addrs = l₁ ++ sel :: l₂ ∧ ∀ y ∈ l₁, sel.priority < y.priority) ∧
    (validateMx r cfg h
        = .ok { hostname := h ++ ".", recordType := "MX",
                expectedValue := "0 " ++ jsIndex0 cfg.validMx ++ "." }
      ↔ sel.exchange ∈ cfg.validMx) ∧
    (sel.exchange ∉ cfg.validMx →
      errChain (validateMx r cfg h)
        = some [{ nr := 0, type := "MX", hostname := h,
                  result := .values ((sel :: rest).map
                    (fun e => toString e.priority ++ " " ++ e.exchange)) }] ∧
      List.Perm (sel :: rest) addrs ∧
      (sel :: rest).Sorted mxLe) := by
  refine ⟨sortMx_head_mem addrs sel rest hsort,
    sortMx_head_min addrs sel rest hsort,
    sortMx_head_firstMin addrs sel rest hsort, ?_, ?_⟩
  · by_cases hmem : sel.exchange ∈ cfg.validMx
    · simp [validateMx, hres, hsort, hmem]
    · simp [validateMx, hres, hsort, hmem]
  · intro hmem
    refine ⟨by simp [validateMx, hres, hsort, hmem, errChain],
      hsort ▸ sortMx_perm addrs, hsort ▸ sortMx_sorted addrs⟩

theorem C6_mx_lowest_priority_witness :
    ((⟨5, "a"⟩ : MxRecord) ∈ [(⟨10, "b"⟩ : MxRecord), ⟨5, "a"⟩] ∧
     (∀ y ∈ [(⟨10, "b"⟩ : MxRecord), ⟨5, "a"⟩],
        (⟨5, "a"⟩ : MxRecord).priority ≤ y.priority) ∧
     (∃ l₁ l₂, [(⟨10, "b"⟩ : MxRecord), ⟨5, "a"⟩]
         = l₁ ++ (⟨5, "a"⟩ : MxRecord) :: l₂ ∧
       ∀ y ∈ l₁, (⟨5, "a"⟩ : MxRecord).priority < y.priority) ∧
     (validateMx tMxPair cfgMxA "h"
         = .ok { hostname := "h.", recordType := "MX",
                 expectedValue := "0 " ++ jsIndex0 cfgMxA.validMx ++ "." }
       ↔ (⟨5, "a"⟩ : MxRecord).exchange ∈ cfgMxA.validMx) ∧
     ((⟨5, "a"⟩ : MxRecord).exchange ∉ cfgMxA.validMx →
       errChain (validateMx tMxPair cfgMxA "h")
         = some [{ nr := 0, type := "MX", hostname := "h",
                   result := .values (([(⟨5, "a"⟩ : MxRecord), ⟨10, "b"⟩]).map
                     (fun e => toString e.priority ++ " " ++ e.exchange)) }] ∧
       List.Perm [(⟨5, "a"⟩ : MxRecord), ⟨10, "b"⟩]
         [(⟨10, "b"⟩ : MxRecord), ⟨5, "a"⟩] ∧
       ([(⟨5, "a"⟩ : MxRecord), ⟨10, "b"⟩]).Sorted mxLe)) :=
  C6_mx_lowest_priority tMxPair cfgMxA "h" [⟨10, "b"⟩, ⟨5, "a"⟩] ⟨5, "a"⟩
    [⟨10, "b"⟩] rfl rfl

/-- C2: during the CNAME walk each query appends exactly one chain entry
and, when no returned target is allow-listed and the depth limit is not
reached, the walker recurses on the first returned target (the step
equation of the first conjunct); a chain of exactly 16 non-matching hops
fails and `validateWeb` wraps the "CNAME record lookup exceeded maximum
depth" failure with the 16-entry chain attached, while 15 hops whose final
hop's targets intersect the allow-list succeed with the final chain entry
marked valid. -/
theorem C2_cname_walk (r : DnsTransport) (cfg : DnsValidateConfig)
    (hostname : String) (chain : List ChainEntry) (ts : List String)
    (hres : r.resolveCname hostname = .ok ts)
    (hmiss : ts.filter (fun e => cfg.validCname.contains e) = [])
    (hdepth : chain.length + 1 < MAX_CNAME_DEPTH) :
    (validateCname r cfg hostname chain
      = validateCname r cfg (ts.headD "")
          (chain ++ [{ nr := chain.length, type := "CNAME",
                       hostname := hostname, result := .values ts }])) ∧
    ((webErr (validateWeb tHop resetConfig "h")).map
        (fun e => (e.cause, e.chain.length))
      = some (.generic "CNAME record lookup exceeded maximum depth",
              MAX_CNAME_DEPTH)) ∧
    (validateCname tHop cfgHop15 "h" []).1 = .ok () ∧
    (validateCname tHop cfgHop15 "h" []).2.length = 15 ∧
    ((validateCname tHop cfgHop15 "h" []).2.getLast?).map (fun e => e.result)
      = some .valid := by
  refine ⟨?_, ?_, ?_, ?_, ?_⟩
  · have hlt : ¬ (MAX_CNAME_DEPTH ≤ chain.length + 1) := by omega
    conv_lhs => rw [validateCname]
    rw [hres]
    dsimp only
    rw [hmiss]
    rw [if_neg (by decide)]
    rw [setChainResult_append]
    rw [if_neg (by
      simp only [List.length_append, List.length_cons, List.length_nil]
      omega)]
  · simp [validateWeb, validateCname, tHop, tEnodata, resetConfig, webErr,
      setChainResult, MAX_CNAME_DEPTH, JsError.toCause]
  · simp [validateCname, tHop, tEnodata, cfgHop15, host15, resetConfig,
      setChainResult, MAX_CNAME_DEPTH, List.replicate]
  · simp [validateCname, tHop, tEnodata, cfgHop15, host15, resetConfig,
      setChainResult, MAX_CNAME_DEPTH, List.replicate]
  · simp [validateCname, tHop, tEnodata, cfgHop15, host15, resetConfig,
      setChainResult, MAX_CNAME_DEPTH, List.replicate]

theorem C2_cname_walk_witness :
    (validateCname tHop resetConfig "h" []
      = validateCname tHop resetConfig "hx"
          [{ nr := 0, type := "CNAME", hostname := "h",
             result := .values ["hx"] }]) ∧
    ((webErr (validateWeb tHop resetConfig "h")).map
        (fun e => (e.cause, e.chain.length))
      = some (.generic "CNAME record lookup exceeded maximum depth",
              MAX_CNAME_DEPTH)) ∧
    (validateCname tHop cfgHop15 "h" []).1 = .ok () ∧
    (validateCname tHop cfgHop15 "h" []).2.length = 15 ∧
    ((validateCname tHop cfgHop15 "h" []).2.getLast?).map (fun e => e.result)
      = some .valid := by
  have h := C2_cname_walk tHop resetConfig "h" [] ["hx"] rfl rfl (by decide)
  simpa using h

end NodeDnsResolver
